import Mathlib

/-!
Verification of the SLV IIIF image-download notebook
(`download_image_from_iiif.ipynb`).

The notebook defines four functions: `get_pid`, `get_image_ids`,
`construct_image_url` and `download_image`.  They are embedded below as
pure Lean functions; the network, the `requests.Session` cookie jar and
the filesystem are made explicit (a `World` answers HTTP requests, and
`download_image` returns a trace of observable events together with an
optional uncaught Python exception).
-/

/-- A JSON value, as produced by `response.json()` in Python. -/
inductive Json where
  | null
  | bool (b : Bool)
  | num (n : Int)
  | str (s : String)
  | arr (elems : List Json)
  | obj (fields : List (String × Json))

/-- The Python exceptions that the notebook's code can raise. -/
inductive PyErr where
  | keyError
  | indexError
  | typeError
  | valueError
  | connectionError
deriving DecidableEq

/-- Python subscripting `j[key]` with a string key: succeeds only on a
dict containing the key; `KeyError` on a dict without it; `TypeError`
on any non-dict value. -/
def pySubscript (j : Json) (key : String) : Except PyErr Json :=
  match j with
  | Json.obj kvs =>
    match kvs.lookup key with
    | some v => Except.ok v
    | none => Except.error PyErr.keyError
  | _ => Except.error PyErr.typeError

/-- Python subscripting `j[i]` with an integer index: works on lists and
strings (`IndexError` out of range; a string yields a one-character
string), `KeyError` on a string-keyed dict, `TypeError` otherwise. -/
def pyIndex (j : Json) (i : Nat) : Except PyErr Json :=
  match j with
  | Json.arr xs =>
    match xs.get? i with
    | some v => Except.ok v
    | none => Except.error PyErr.indexError
  | Json.str s =>
    match s.data.get? i with
    | some c => Except.ok (Json.str (String.mk [c]))
    | none => Except.error PyErr.indexError
  | Json.obj _ => Except.error PyErr.keyError
  | _ => Except.error PyErr.typeError

/-- Python iteration `for x in j`: a list yields its elements, a string
its one-character substrings, a dict its keys; everything else raises
`TypeError`. -/
def pyIterate (j : Json) : Except PyErr (List Json) :=
  match j with
  | Json.arr xs => Except.ok xs
  | Json.str s => Except.ok (s.data.map (fun c => Json.str (String.mk [c])))
  | Json.obj kvs => Except.ok (kvs.map (fun kv => Json.str kv.1))
  | _ => Except.error PyErr.typeError

/-- Exception propagation: a raised exception aborts the computation. -/
def exBind (x : Except PyErr α) (f : α → Except PyErr β) : Except PyErr β :=
  match x with
  | Except.error e => Except.error e
  | Except.ok a => f a

/-- Run `f` over a list left to right, aborting at the first exception
(as the Python `for` loop with `append` does: on an exception the
partially built list is discarded with the raised error). -/
def mapExcept (f : α → Except PyErr β) : List α → Except PyErr (List β)
  | [] => Except.ok []
  | a :: rest =>
    exBind (f a) fun b =>
      exBind (mapExcept f rest) fun bs =>
        Except.ok (b :: bs)

/-- `canvas['images'][0]['resource']['service']['@id']` from the body of
the loop in `get_image_ids`. -/
def canvasImageId (canvas : Json) : Except PyErr Json :=
  exBind (pySubscript canvas "images") fun imgs =>
    exBind (pyIndex imgs 0) fun img0 =>
      exBind (pySubscript img0 "resource") fun res =>
        exBind (pySubscript res "service") fun svc =>
          pySubscript svc "@id"

/-- The value `manifest['sequences'][0]['canvases']`. -/
def canvasesValue (manifest : Json) : Except PyErr Json :=
  exBind (pySubscript manifest "sequences") fun seqs =>
    exBind (pyIndex seqs 0) fun seq0 =>
      pySubscript seq0 "canvases"

/-- The iterable `manifest['sequences'][0]['canvases']` as the list of
values the Python `for` loop visits. -/
def manifestCanvases (manifest : Json) : Except PyErr (List Json) :=
  exBind (canvasesValue manifest) pyIterate

/-- `get_image_ids(manifest)`: walk the first sequence's canvases in
document order collecting `canvas['images'][0]['resource']['service']['@id']`;
any uncaught `KeyError` / `IndexError` / `TypeError` propagates. -/
def get_image_ids (manifest : Json) : Except PyErr (List Json) :=
  exBind (manifestCanvases manifest) fun cs =>
    mapExcept canvasImageId cs

/-- Try to match the regex `entity=(IE\d+)` at the head of `l`:
the literal `entity=IE` followed by a maximal nonempty digit run;
the capture group is `IE` plus that run. -/
def entityHere (l : List Char) : Option String :=
  if l.take 9 = "entity=IE".data then
    if ((l.drop 9).takeWhile Char.isDigit).isEmpty then none
    else some (String.mk ("IE".data ++ (l.drop 9).takeWhile Char.isDigit))
  else none

/-- `re.search(r'entity=(IE\d+)', s)`: leftmost match wins. -/
def entitySearch : List Char → Option String
  | [] => none
  | c :: rest =>
    match entityHere (c :: rest) with
    | some g => some g
    | none => entitySearch rest

/-- Python truthiness of an optional integer argument: `None` and `0`
are falsy. -/
def truthyNat : Option Nat → Bool
  | none => false
  | some n => n != 0

/-- `construct_image_url(image_id, image_type, max_width, max_height)`:
pick the IIIF size token by truthiness of the two bounds, then build
`{image_id}/full/{size}/0/default.{image_type}`. -/
def construct_image_url (image_id image_type : String)
    (max_width max_height : Option Nat) : String :=
  let size :=
    if truthyNat max_width && truthyNat max_height then
      "!" ++ toString (max_width.getD 0) ++ "," ++ toString (max_height.getD 0)
    else if truthyNat max_width then
      toString (max_width.getD 0) ++ ","
    else if truthyNat max_height then
      "," ++ toString (max_height.getD 0)
    else
      "max"
  image_id ++ "/full/" ++ size ++ "/0/default." ++ image_type

mutual

/-- Python `repr` of a JSON value (used for values nested in containers). -/
def pyRepr : Json → String
  | Json.null => "None"
  | Json.bool true => "True"
  | Json.bool false => "False"
  | Json.num n => toString n
  | Json.str s => "'" ++ s ++ "'"
  | Json.arr xs => "[" ++ pyReprList xs ++ "]"
  | Json.obj kvs => "\x7b" ++ pyReprFields kvs ++ "\x7d"

/-- Comma-separated `repr`s of list elements. -/
def pyReprList : List Json → String
  | [] => ""
  | [x] => pyRepr x
  | x :: rest => pyRepr x ++ ", " ++ pyReprList rest

/-- Comma-separated `repr`s of dict entries. -/
def pyReprFields : List (String × Json) → String
  | [] => ""
  | [kv] => "'" ++ kv.1 ++ "': " ++ pyRepr kv.2
  | kv :: rest => "'" ++ kv.1 ++ "': " ++ pyRepr kv.2 ++ ", " ++ pyReprFields rest

end

/-- Python `str` of a JSON value, as an f-string interpolates it. -/
def pyStr : Json → String
  | Json.null => "None"
  | Json.bool true => "True"
  | Json.bool false => "False"
  | Json.num n => toString n
  | Json.str s => s
  | Json.arr xs => "[" ++ pyReprList xs ++ "]"
  | Json.obj kvs => "\x7b" ++ pyReprFields kvs ++ "\x7d"

/-- An HTTP response as the notebook observes it: `response.url` is the
final URL after redirects, `cookies` the pairs set by `Set-Cookie`
headers, `body` the raw `response.content`, and `jsonOf` the result of
`response.json()` (`none` means the body is not JSON, so `.json()`
raises a ValueError). -/
structure Resp where
  url : String
  status : Nat
  cookies : List (String × String)
  body : String
  jsonOf : Option Json

/-- The network: a response (or a raised connection error) for each
request URL and set of cookies sent with the request. -/
structure World where
  respond : String → List (String × String) → Except PyErr Resp

/-- Observable side effects of a `download_image` run. -/
inductive Event where
  | plainGet (url : String)
  | sessionCreate (sid : Nat)
  | sessionGet (sid : Nat) (url : String) (sent : List (String × String))
  | mkdirp (path : String)
  | fileWrite (path : String) (content : String)
deriving DecidableEq

def Event.isSessionCreate : Event → Bool
  | Event.sessionCreate _ => true
  | _ => false

def Event.isSessionGet : Event → Bool
  | Event.sessionGet _ _ _ => true
  | _ => false

def Event.isFileWrite : Event → Bool
  | Event.fileWrite _ _ => true
  | _ => false

/-- Store one cookie in a jar: replace the value of an existing cookie
of the same name, else append. -/
def setCookiePair (jar : List (String × String)) (p : String × String) :
    List (String × String) :=
  if jar.any (fun q => q.1 = p.1) then
    jar.map (fun q => if q.1 = p.1 then (q.1, p.2) else q)
  else
    jar ++ [p]

/-- Merge the cookies of a response into a session's jar, as
`requests.Session` does after each request. -/
def updateJar (jar new : List (String × String)) : List (String × String) :=
  new.foldl setCookiePair jar

/-- A cookie of the given name is in the jar (with some value). -/
def namePresent (jar : List (String × String)) (n : String) : Prop :=
  ∃ v, (n, v) ∈ jar

/-- `f'{pid}'` where `pid` may be Python `None`. -/
def pidString : Option String → String
  | some p => p
  | none => "None"

/-- The fixed presentation-API manifest URL template with the pid
interpolated. -/
def manifestUrlOf (pidStr : String) : String :=
  "https://rosetta.slv.vic.gov.au/delivery/iiif/presentation/2.1/" ++ pidStr ++ "/manifest"

/-- `f'images/slv-{pid}-{index}.{image_type}'`. -/
def imageFilename (pidStr : String) (index : Nat) (image_type : String) : String :=
  "images/slv-" ++ pidStr ++ "-" ++ toString index ++ "." ++ image_type

/-- `get_pid(handle_url)`: GET the handle URL (no session, no cookies),
search the final URL for `entity=(IE\d+)`, return the capture group if
any, else Python `None`; a connection error propagates. -/
def get_pid (w : World) (handle_url : String) : Except PyErr (Option String) :=
  match w.respond handle_url [] with
  | Except.error e => Except.error e
  | Except.ok r => Except.ok (entitySearch r.url.data)

/-- The image-downloading loop of `download_image`: for each image id at
`index`, build the IIIF URL, GET it through the session (sending the
jar, then merging the response's cookies into the jar), and write the
raw response body to `images/slv-{pid}-{index}.{image_type}`.  The
response status is never inspected.  A connection error propagates,
ending the loop. -/
def downloadLoop (w : World) (pidStr image_type : String)
    (max_width max_height : Option Nat) :
    List Json → Nat → List (String × String) → List Event × Option PyErr
  | [], _, _ => ([], none)
  | imageId :: rest, index, jar =>
    let image_url := construct_image_url (pyStr imageId) image_type max_width max_height
    match w.respond image_url jar with
    | Except.error e => ([Event.sessionGet 0 image_url jar], some e)
    | Except.ok r =>
      let next := downloadLoop w pidStr image_type max_width max_height
        rest (index + 1) (updateJar jar r.cookies)
      (Event.sessionGet 0 image_url jar
        :: Event.fileWrite (imageFilename pidStr index image_type) r.body
        :: next.1, next.2)

/-- `download_image(handle_url, image_type, max_width, max_height)`:
resolve the handle with a plain GET, build the manifest URL from the
pid (Python's `None` prints as `"None"`), create a fresh session, GET
the manifest through it, parse the JSON body, extract the image ids,
make the `images` directory, then run the download loop through the
same session.  Returns the event trace and the uncaught exception, if
any. -/
def download_image (w : World) (handle_url : String)
    (image_type : String := "jpg")
    (max_width : Option Nat := none) (max_height : Option Nat := none) :
    List Event × Option PyErr :=
  match w.respond handle_url [] with
  | Except.error e => ([Event.plainGet handle_url], some e)
  | Except.ok r0 =>
    let pidStr := pidString (entitySearch r0.url.data)
    let manifest_url := manifestUrlOf pidStr
    let pre := [Event.plainGet handle_url, Event.sessionCreate 0]
    match w.respond manifest_url [] with
    | Except.error e => (pre ++ [Event.sessionGet 0 manifest_url []], some e)
    | Except.ok rm =>
      match rm.jsonOf with
      | none => (pre ++ [Event.sessionGet 0 manifest_url []], some PyErr.valueError)
      | some manifest =>
        match get_image_ids manifest with
        | Except.error e =>
          (pre ++ [Event.sessionGet 0 manifest_url []], some e)
        | Except.ok image_ids =>
          let loopRes := downloadLoop w pidStr image_type max_width max_height
            image_ids 0 (updateJar [] rm.cookies)
          (pre ++ [Event.sessionGet 0 manifest_url [], Event.mkdirp "images"]
            ++ loopRes.1, loopRes.2)

/-- The files a trace writes, in order: `(path, contents)` pairs. -/
def writesOf (tr : List Event) : List (String × String) :=
  tr.filterMap fun ev =>
    match ev with
    | Event.fileWrite p c => some (p, c)
    | _ => none

/-- A canvas whose first image resource's service id is `svc`, with the
nesting `get_image_ids` walks. -/
def mkCanvas (svc : String) : Json :=
  Json.obj [("images", Json.arr [Json.obj [("resource",
    Json.obj [("service", Json.obj [("@id", Json.str svc)])])]])]

/-- A manifest whose first sequence's canvases are `mkCanvas` of each
given service id, in order. -/
def mkManifest (svcs : List String) : Json :=
  Json.obj [("sequences", Json.arr [Json.obj [("canvases",
    Json.arr (svcs.map mkCanvas))]])]

/-- `mapExcept` succeeds pointwise: if `f` sends each element of `xs` to
the matching element of `ys`, the whole traversal returns `ys`. -/
theorem mapExcept_forall2 {α β : Type} (f : α → Except PyErr β) :
    ∀ {xs : List α} {ys : List β},
      List.Forall₂ (fun a b => f a = Except.ok b) xs ys →
      mapExcept f xs = Except.ok ys := by
  intro xs ys h
  induction h with
  | nil => rfl
  | cons hab _ ih => simp [mapExcept, exBind, hab, ih]

/-- C3: the size-token mapping of `construct_image_url` over the four
SizeSpec shapes (absent or positive bounds): `(none, none) -> max`,
`(w, none) -> "w,"`, `(none, h) -> ",h"`, `(w, h) -> "!w,h"`, always
inside `{id}/full/{size}/0/default.{format}`. -/
theorem construct_image_url_size_mapping (id fmt : String) :
    construct_image_url id fmt none none
      = id ++ "/full/" ++ "max" ++ "/0/default." ++ fmt
  ∧ (∀ w : Nat, 0 < w → construct_image_url id fmt (some w) none
      = id ++ "/full/" ++ (toString w ++ ",") ++ "/0/default." ++ fmt)
  ∧ (∀ h : Nat, 0 < h → construct_image_url id fmt none (some h)
      = id ++ "/full/" ++ ("," ++ toString h) ++ "/0/default." ++ fmt)
  ∧ (∀ w h : Nat, 0 < w → 0 < h → construct_image_url id fmt (some w) (some h)
      = id ++ "/full/" ++ ("!" ++ toString w ++ "," ++ toString h) ++ "/0/default." ++ fmt) := by
  refine ⟨rfl, ?_, ?_, ?_⟩
  · intro w hw
    have hw' : (w != 0) = true := by simp [Nat.pos_iff_ne_zero.mp hw]
    simp [construct_image_url, truthyNat, hw']
  · intro h hh
    have hh' : (h != 0) = true := by simp [Nat.pos_iff_ne_zero.mp hh]
    simp [construct_image_url, truthyNat, hh']
  · intro w h hw hh
    have hw' : (w != 0) = true := by simp [Nat.pos_iff_ne_zero.mp hw]
    have hh' : (h != 0) = true := by simp [Nat.pos_iff_ne_zero.mp hh]
    simp [construct_image_url, truthyNat, hw', hh']

/-- Witness for C3 at the claim's sample sizes 200 and 150. -/
theorem construct_image_url_size_mapping_witness :
    0 < 200 ∧ 0 < 150
  ∧ construct_image_url "https://img.example/service1" "jpg" (some 200) none
      = "https://img.example/service1" ++ "/full/" ++ (toString 200 ++ ",") ++ "/0/default." ++ "jpg"
  ∧ construct_image_url "https://img.example/service1" "jpg" (some 200) (some 150)
      = "https://img.example/service1" ++ "/full/"
        ++ ("!" ++ toString 200 ++ "," ++ toString 150) ++ "/0/default." ++ "jpg" :=
  ⟨by decide, by decide,
   (construct_image_url_size_mapping "https://img.example/service1" "jpg").2.1
     200 (by decide),
   (construct_image_url_size_mapping "https://img.example/service1" "jpg").2.2.2
     200 150 (by decide) (by decide)⟩

/-- C10: `construct_image_url` tests the bounds by Python truthiness, so
a bound of `0` behaves exactly like an absent bound: `(0, 150)` yields
the `,150` token, `(0, 0)` yields `max`, and the `!w,h` shape of the
four-shape mapping fails at `w = 0`. -/
theorem construct_image_url_truthiness (id fmt : String) :
    construct_image_url id fmt (some 0) (some 150)
      = id ++ "/full/" ++ ("," ++ toString 150) ++ "/0/default." ++ fmt
  ∧ construct_image_url id fmt (some 0) (some 0)
      = id ++ "/full/" ++ "max" ++ "/0/default." ++ fmt
  ∧ (∀ mh, construct_image_url id fmt (some 0) mh = construct_image_url id fmt none mh)
  ∧ (∀ mw, construct_image_url id fmt mw (some 0) = construct_image_url id fmt mw none)
  ∧ construct_image_url "svc" "jpg" (some 0) (some 150) ≠ "svc/full/!0,150/0/default.jpg" := by
  refine ⟨rfl, rfl, fun mh => rfl, fun mw => ?_, by decide⟩
  cases mw <;> rfl

/-- Witness for C10: the zero bound is treated as absent at a concrete
input, and the `!w,h` shape does not hold there. -/
theorem construct_image_url_truthiness_witness :
    construct_image_url "svc" "jpg" (some 0) (some 150)
      = construct_image_url "svc" "jpg" none (some 150)
  ∧ construct_image_url "svc" "jpg" (some 0) (some 150) ≠ "svc/full/!0,150/0/default.jpg" :=
  ⟨(construct_image_url_truthiness "svc" "jpg").2.2.1 (some 150),
   (construct_image_url_truthiness "svc" "jpg").2.2.2.2⟩

/-- C4: on a manifest whose first sequence's canvases each carry a
service id (`ids`, one per canvas), `get_image_ids` returns exactly the
`ids` in canvas document order, one per canvas; in particular the
two-canvas example with services `A` and `B` yields `[A, B]`. -/
theorem get_image_ids_wellformed (m : Json) (cs : List Json) (ids : List String)
    (hcs : manifestCanvases m = Except.ok cs)
    (h2 : List.Forall₂ (fun c i => canvasImageId c = Except.ok (Json.str i)) cs ids) :
    get_image_ids m = Except.ok (ids.map Json.str)
  ∧ (ids.map Json.str).length = cs.length
  ∧ get_image_ids (mkManifest ["A", "B"]) = Except.ok [Json.str "A", Json.str "B"] := by
  refine ⟨?_, ?_, rfl⟩
  · have hmap : mapExcept canvasImageId cs = Except.ok (ids.map Json.str) :=
      mapExcept_forall2 _ (List.forall₂_map_right_iff.2 h2)
    simp [get_image_ids, exBind, hcs, hmap]
  · simp [h2.length_eq]

/-- Witness for C4 at the claim's two-canvas example. -/
theorem get_image_ids_wellformed_witness :
    manifestCanvases (mkManifest ["A", "B"]) = Except.ok [mkCanvas "A", mkCanvas "B"]
  ∧ get_image_ids (mkManifest ["A", "B"]) = Except.ok (["A", "B"].map Json.str)
  ∧ (["A", "B"].map Json.str).length = [mkCanvas "A", mkCanvas "B"].length :=
  have h1 : manifestCanvases (mkManifest ["A", "B"])
      = Except.ok [mkCanvas "A", mkCanvas "B"] := rfl
  have h2 : List.Forall₂ (fun c i => canvasImageId c = Except.ok (Json.str i))
      [mkCanvas "A", mkCanvas "B"] ["A", "B"] :=
    List.Forall₂.cons rfl (List.Forall₂.cons rfl List.Forall₂.nil)
  ⟨h1, (get_image_ids_wellformed _ _ _ h1 h2).1,
    (get_image_ids_wellformed _ _ _ h1 h2).2.1⟩

/-- Storing a cookie never removes a cookie name from the jar. -/
theorem namePresent_setCookiePair {jar : List (String × String)} {n : String}
    (h : namePresent jar n) (p : String × String) :
    namePresent (setCookiePair jar p) n := by
  obtain ⟨v, hv⟩ := h
  unfold setCookiePair
  split
  · by_cases hn : n = p.1
    · exact ⟨p.2, List.mem_map.2 ⟨(n, v), hv, by simp [hn]⟩⟩
    · exact ⟨v, List.mem_map.2 ⟨(n, v), hv, by simp [hn]⟩⟩
  · exact ⟨v, List.mem_append_left _ hv⟩

/-- Merging response cookies never removes a cookie name from the jar. -/
theorem namePresent_updateJar {jar : List (String × String)} {n : String}
    (h : namePresent jar n) (new : List (String × String)) :
    namePresent (updateJar jar new) n := by
  induction new generalizing jar with
  | nil => exact h
  | cons p rest ih =>
    show namePresent (updateJar (setCookiePair jar p) rest) n
    exact ih (namePresent_setCookiePair h p)

/-- After storing cookie `p`, the name `p.1` is in the jar. -/
theorem namePresent_setCookiePair_self (jar : List (String × String))
    (p : String × String) : namePresent (setCookiePair jar p) p.1 := by
  unfold setCookiePair
  split
  case isTrue hany =>
    rw [List.any_eq_true] at hany
    obtain ⟨q, hq, hq1⟩ := hany
    have hq1' : q.1 = p.1 := of_decide_eq_true hq1
    exact ⟨p.2, List.mem_map.2 ⟨q, hq, by simp [hq1']⟩⟩
  case isFalse =>
    exact ⟨p.2, by simp⟩

/-- Every cookie name of the merged-in response is in the merged jar. -/
theorem namePresent_updateJar_new {n v : String} :
    ∀ (new jar : List (String × String)), (n, v) ∈ new →
      namePresent (updateJar jar new) n := by
  intro new
  induction new with
  | nil => intro jar h; cases h
  | cons p rest ih =>
    intro jar h
    show namePresent (updateJar (setCookiePair jar p) rest) n
    cases List.mem_cons.1 h with
    | inl heq =>
      have h1 : namePresent (setCookiePair jar p) n := by
        have := namePresent_setCookiePair_self jar p
        rw [show p.1 = n from by rw [← heq]] at this
        exact this
      exact namePresent_updateJar h1 rest
    | inr hrest => exact ih (setCookiePair jar p) hrest

/-- What an event of the download loop started with jar `jar0` may look
like: only session GETs (with session id 0, sending a jar that keeps
every name of `jar0`) and file writes. -/
def loopEventOk (jar0 : List (String × String)) (ev : Event) : Prop :=
  match ev with
  | Event.sessionGet sid _ sent =>
    sid = 0 ∧ ∀ n, namePresent jar0 n → namePresent sent n
  | Event.fileWrite _ _ => True
  | _ => False

/-- A jar extension is reflected in `loopEventOk`. -/
theorem loopEventOk_mono {jar jar' : List (String × String)} {ev : Event}
    (hsub : ∀ n, namePresent jar n → namePresent jar' n)
    (h : loopEventOk jar' ev) : loopEventOk jar ev := by
  cases ev with
  | sessionGet sid url sent => exact ⟨h.1, fun n hn => h.2 n (hsub n hn)⟩
  | fileWrite p c => trivial
  | plainGet u => exact h
  | sessionCreate s => exact h
  | mkdirp p => exact h

/-- Every event of the download loop is a session GET through session 0
whose sent jar keeps every cookie name of the starting jar, or a file
write. -/
theorem downloadLoop_events (w : World) (pidStr ty : String)
    (mw mh : Option Nat) :
    ∀ (ids : List Json) (index : Nat) (jar : List (String × String)),
      ∀ ev ∈ (downloadLoop w pidStr ty mw mh ids index jar).1,
        loopEventOk jar ev := by
  intro ids
  induction ids with
  | nil => intro index jar ev hev; simp [downloadLoop] at hev
  | cons imageId rest ih =>
    intro index jar ev hev
    cases hr : w.respond (construct_image_url (pyStr imageId) ty mw mh) jar with
    | error e =>
      simp [downloadLoop, hr] at hev
      subst hev
      exact ⟨rfl, fun n hn => hn⟩
    | ok r =>
      simp [downloadLoop, hr] at hev
      rcases hev with hev | hev | hev
      · subst hev; exact ⟨rfl, fun n hn => hn⟩
      · subst hev; trivial
      · exact loopEventOk_mono
          (fun n hn => namePresent_updateJar hn r.cookies)
          (ih (index + 1) (updateJar jar r.cookies) ev hev)

/-- The download loop creates no session. -/
theorem downloadLoop_no_create (w : World) (pidStr ty : String)
    (mw mh : Option Nat) (ids : List Json) (index : Nat)
    (jar : List (String × String)) :
    ∀ ev ∈ (downloadLoop w pidStr ty mw mh ids index jar).1,
      Event.isSessionCreate ev = false := by
  intro ev hev
  have h := downloadLoop_events w pidStr ty mw mh ids index jar ev hev
  cases ev with
  | sessionGet sid url sent => rfl
  | fileWrite p c => rfl
  | plainGet u => cases h
  | sessionCreate s => cases h
  | mkdirp p => cases h

/-- C1: each `download_image` invocation creates one fresh session; the
manifest GET is the first request through it (sent with an empty cookie
jar, so nothing carries over from a prior invocation); every subsequent
image GET goes through the same session id and its sent jar keeps every
cookie name set by the manifest response. -/
theorem download_image_session_reuse
    (w : World) (handle ty : String) (mw mh : Option Nat) (r0 rm : Resp)
    (h0 : w.respond handle [] = Except.ok r0)
    (hm : w.respond (manifestUrlOf (pidString (entitySearch r0.url.data))) []
      = Except.ok rm) :
    ((download_image w handle ty mw mh).1.take 3
      = [Event.plainGet handle, Event.sessionCreate 0,
         Event.sessionGet 0 (manifestUrlOf (pidString (entitySearch r0.url.data))) []])
  ∧ ((download_image w handle ty mw mh).1.filter Event.isSessionCreate
      = [Event.sessionCreate 0])
  ∧ (∀ sid url sent,
      Event.sessionGet sid url sent ∈ (download_image w handle ty mw mh).1 →
      sid = 0)
  ∧ (∀ sid url sent,
      Event.sessionGet sid url sent ∈ (download_image w handle ty mw mh).1.drop 3 →
      ∀ n v, (n, v) ∈ rm.cookies → namePresent sent n) := by
  cases hj : rm.jsonOf with
  | none =>
    have htr : (download_image w handle ty mw mh).1
        = [Event.plainGet handle, Event.sessionCreate 0,
           Event.sessionGet 0 (manifestUrlOf (pidString (entitySearch r0.url.data))) []] := by
      simp [download_image, h0, hm, hj]
    refine ⟨by rw [htr]; rfl, by rw [htr]; rfl, ?_, ?_⟩
    · intro sid url sent hmem
      rw [htr] at hmem
      simp at hmem
      exact hmem.1
    · intro sid url sent hmem
      rw [htr] at hmem
      simp at hmem
  | some manifest =>
    cases hg : get_image_ids manifest with
    | error e =>
      have htr : (download_image w handle ty mw mh).1
          = [Event.plainGet handle, Event.sessionCreate 0,
             Event.sessionGet 0 (manifestUrlOf (pidString (entitySearch r0.url.data))) []] := by
        simp [download_image, h0, hm, hj, hg]
      refine ⟨by rw [htr]; rfl, by rw [htr]; rfl, ?_, ?_⟩
      · intro sid url sent hmem
        rw [htr] at hmem
        simp at hmem
        exact hmem.1
      · intro sid url sent hmem
        rw [htr] at hmem
        simp at hmem
    | ok ids =>
      have htr : (download_image w handle ty mw mh).1
          = Event.plainGet handle :: Event.sessionCreate 0
            :: Event.sessionGet 0 (manifestUrlOf (pidString (entitySearch r0.url.data))) []
            :: Event.mkdirp "images"
            :: (downloadLoop w (pidString (entitySearch r0.url.data)) ty mw mh
                  ids 0 (updateJar [] rm.cookies)).1 := by
        simp [download_image, h0, hm, hj, hg]
      have hloop := downloadLoop_events w (pidString (entitySearch r0.url.data))
        ty mw mh ids 0 (updateJar [] rm.cookies)
      refine ⟨by rw [htr]; rfl, ?_, ?_, ?_⟩
      · rw [htr]
        simp only [List.filter, Event.isSessionCreate]
        rw [List.filter_eq_nil_iff.2
          (fun ev hev => by
            simp [downloadLoop_no_create w _ ty mw mh ids 0 _ ev hev])]
      · intro sid url sent hmem
        rw [htr] at hmem
        simp only [List.mem_cons] at hmem
        rcases hmem with h | h | h | h | h
        · cases h
        · cases h
        · injection h
        · cases h
        · exact (hloop _ h).1
      · intro sid url sent hmem
        rw [htr] at hmem
        simp only [List.drop, List.mem_cons] at hmem
        rcases hmem with h | h
        · cases h
        · intro n v hnv
          exact (hloop _ h).2 n (namePresent_updateJar_new rm.cookies [] hnv)

/-- The end-to-end example: the Handle URL of the claim. -/
def handleC2 : String := "http://handle.slv.vic.gov.au/10381/25896"

/-- The final URL the Handle redirects to, carrying the pid. -/
def finalUrlC2 : String := "https://viewer.slv.vic.gov.au/?entity=IE1164978&mode=browse"

/-- The one image service id of the example manifest. -/
def svcC2 : String := "https://img.example/service1"

/-- The manifest response of the example: sets a session cookie and
carries a one-canvas manifest for `svcC2`. -/
def manifestRespC2 : Resp :=
  { url := manifestUrlOf "IE1164978", status := 200,
    cookies := [("JSESSIONID", "abc123")], body := "",
    jsonOf := some (mkManifest [svcC2]) }

/-- The image response of the example. -/
def imageRespC2 : Resp :=
  { url := svcC2 ++ "/full/max/0/default.jpg", status := 200, cookies := [],
    body := "IMAGEBYTES", jsonOf := none }

/-- The handle response of the example (after following redirects). -/
def handleRespC2 : Resp :=
  { url := finalUrlC2, status := 200, cookies := [], body := "", jsonOf := none }

/-- The example server: the Handle URL resolves to `finalUrlC2`, the
manifest endpoint serves the one-canvas manifest, the image endpoint
serves the bytes; everything else is unreachable. -/
def wC2 : World :=
  ⟨fun url _jar =>
    if url = handleC2 then Except.ok handleRespC2
    else if url = manifestUrlOf "IE1164978" then Except.ok manifestRespC2
    else if url = svcC2 ++ "/full/max/0/default.jpg" then Except.ok imageRespC2
    else Except.error PyErr.connectionError⟩

/-- Witness for C1 at the example server: both hypotheses hold and the
trace opens with the fresh session and the cookie-free manifest GET. -/
theorem download_image_session_reuse_witness :
    wC2.respond handleC2 [] = Except.ok handleRespC2
  ∧ wC2.respond (manifestUrlOf (pidString (entitySearch handleRespC2.url.data))) []
      = Except.ok manifestRespC2
  ∧ (download_image wC2 handleC2 "jpg" none none).1.take 3
      = [Event.plainGet handleC2, Event.sessionCreate 0,
         Event.sessionGet 0
           (manifestUrlOf (pidString (entitySearch handleRespC2.url.data))) []] :=
  ⟨rfl, rfl,
   (download_image_session_reuse wC2 handleC2 "jpg" none none
     handleRespC2 manifestRespC2 rfl rfl).1⟩

/-- Once the Handle GET has succeeded, `download_image` either stops at
the manifest stage (three events, an error) or reaches the download
loop, whose trace and error it returns after the fixed prefix. -/
theorem download_image_cases (w : World) (handle ty : String)
    (mw mh : Option Nat) (r0 : Resp)
    (h0 : w.respond handle [] = Except.ok r0) :
    (∃ e, download_image w handle ty mw mh
        = ([Event.plainGet handle, Event.sessionCreate 0,
            Event.sessionGet 0
              (manifestUrlOf (pidString (entitySearch r0.url.data))) []], some e))
  ∨ (∃ rm m ids,
      w.respond (manifestUrlOf (pidString (entitySearch r0.url.data))) []
        = Except.ok rm
      ∧ rm.jsonOf = some m
      ∧ get_image_ids m = Except.ok ids
      ∧ download_image w handle ty mw mh
        = ([Event.plainGet handle, Event.sessionCreate 0,
            Event.sessionGet 0
              (manifestUrlOf (pidString (entitySearch r0.url.data))) [],
            Event.mkdirp "images"]
            ++ (downloadLoop w (pidString (entitySearch r0.url.data)) ty mw mh
                  ids 0 (updateJar [] rm.cookies)).1,
           (downloadLoop w (pidString (entitySearch r0.url.data)) ty mw mh
              ids 0 (updateJar [] rm.cookies)).2)) := by
  cases hm : w.respond (manifestUrlOf (pidString (entitySearch r0.url.data))) [] with
  | error e =>
    exact Or.inl ⟨e, by simp [download_image, h0, hm]⟩
  | ok rm =>
    cases hj : rm.jsonOf with
    | none =>
      exact Or.inl ⟨PyErr.valueError, by simp [download_image, h0, hm, hj]⟩
    | some m =>
      cases hg : get_image_ids m with
      | error e =>
        exact Or.inl ⟨e, by simp [download_image, h0, hm, hj, hg]⟩
      | ok ids =>
        exact Or.inr ⟨rm, m, ids, rfl, hj, hg, by simp [download_image, h0, hm, hj, hg]⟩

/-- Unfolding of the download loop at a nonempty id list. -/
theorem downloadLoop_cons (w : World) (pidStr ty : String) (mw mh : Option Nat)
    (imageId : Json) (rest : List Json) (index : Nat)
    (jar : List (String × String)) :
    downloadLoop w pidStr ty mw mh (imageId :: rest) index jar
      = match w.respond (construct_image_url (pyStr imageId) ty mw mh) jar with
        | Except.error e =>
          ([Event.sessionGet 0 (construct_image_url (pyStr imageId) ty mw mh) jar],
           some e)
        | Except.ok r =>
          (Event.sessionGet 0 (construct_image_url (pyStr imageId) ty mw mh) jar
            :: Event.fileWrite (imageFilename pidStr index ty) r.body
            :: (downloadLoop w pidStr ty mw mh rest (index + 1)
                  (updateJar jar r.cookies)).1,
           (downloadLoop w pidStr ty mw mh rest (index + 1)
              (updateJar jar r.cookies)).2) := rfl

/-- The `k`-th file the download loop writes (0-based) is named
`images/slv-{pid}-{index+k}.{type}`. -/
theorem downloadLoop_write_paths (w : World) (pidStr ty : String)
    (mw mh : Option Nat) :
    ∀ (ids : List Json) (index : Nat) (jar : List (String × String))
      (k : Nat)
      (hk : k < (writesOf (downloadLoop w pidStr ty mw mh ids index jar).1).length),
      ((writesOf (downloadLoop w pidStr ty mw mh ids index jar).1).get ⟨k, hk⟩).1
        = imageFilename pidStr (index + k) ty := by
  intro ids
  induction ids with
  | nil =>
    intro index jar k hk
    simp [downloadLoop, writesOf] at hk
  | cons imageId rest ih =>
    intro index jar k
    rw [downloadLoop_cons]
    cases hr : w.respond (construct_image_url (pyStr imageId) ty mw mh) jar with
    | error e =>
      intro hk
      simp [writesOf] at hk
    | ok r =>
      cases k with
      | zero =>
        intro hk
        simp [writesOf]
      | succ k' =>
        intro hk
        have hk' : k' < (writesOf (downloadLoop w pidStr ty mw mh rest (index + 1)
            (updateJar jar r.cookies)).1).length := by
          simpa [writesOf] using hk
        have h2 := ih (index + 1) (updateJar jar r.cookies) k' hk'
        have harith : index + 1 + k' = index + (k' + 1) := by omega
        rw [harith] at h2
        simpa [writesOf] using h2

/-- C2: on the example server (Handle resolving to pid `IE1164978`, a
one-canvas manifest with service `https://img.example/service1`),
calling `download_image` with default arguments issues exactly one
image request, to `.../full/max/0/default.jpg`, and writes exactly one
file, `images/slv-IE1164978-0.jpg`; in general the `k`-th written file
of any run is `images/slv-{pid}-{k}.{format}`. -/
theorem download_image_end_to_end :
    ((download_image wC2 handleC2 "jpg" none none).2 = none
  ∧ writesOf (download_image wC2 handleC2 "jpg" none none).1
      = [("images/slv-IE1164978-0.jpg", "IMAGEBYTES")]
  ∧ (download_image wC2 handleC2 "jpg" none none).1.filter Event.isSessionGet
      = [Event.sessionGet 0 (manifestUrlOf "IE1164978") [],
         Event.sessionGet 0 "https://img.example/service1/full/max/0/default.jpg"
           [("JSESSIONID", "abc123")]])
  ∧ (∀ (w : World) (handle ty : String) (mw mh : Option Nat) (r0 : Resp),
      w.respond handle [] = Except.ok r0 →
      ∀ (k : Nat)
        (hk : k < (writesOf (download_image w handle ty mw mh).1).length),
        ((writesOf (download_image w handle ty mw mh).1).get ⟨k, hk⟩).1
          = imageFilename (pidString (entitySearch r0.url.data)) k ty) := by
  refine ⟨⟨rfl, rfl, rfl⟩, ?_⟩
  intro w handle ty mw mh r0 h0 k
  rcases download_image_cases w handle ty mw mh r0 h0 with ⟨e, hdl⟩ | ⟨rm, m, ids, _, _, _, hdl⟩
  · rw [hdl]
    intro hk
    simp [writesOf] at hk
  · rw [hdl]
    intro hk
    have hk' : k < (writesOf (downloadLoop w (pidString (entitySearch r0.url.data))
        ty mw mh ids 0 (updateJar [] rm.cookies)).1).length := by
      simpa [writesOf] using hk
    have h2 := downloadLoop_write_paths w (pidString (entitySearch r0.url.data))
      ty mw mh ids 0 (updateJar [] rm.cookies) k hk'
    simpa [writesOf] using h2

/-- Witness for C2's general filename clause, at the example server and
page index 0. -/
theorem download_image_end_to_end_witness :
    wC2.respond handleC2 [] = Except.ok handleRespC2
  ∧ (0 : Nat) < (writesOf (download_image wC2 handleC2 "jpg" none none).1).length
  ∧ ((writesOf (download_image wC2 handleC2 "jpg" none none).1).get
      ⟨0, by decide⟩).1
      = imageFilename (pidString (entitySearch handleRespC2.url.data)) 0 "jpg" :=
  ⟨rfl, by decide,
   download_image_end_to_end.2 wC2 handleC2 "jpg" none none handleRespC2 rfl 0
     (by decide)⟩

/-- The filesystem effect of one event: `Path.write_bytes` opens the
file for (truncating) writing, so a file write replaces the previous
contents of the path; directory creation does not touch file contents. -/
def applyEvent (fs : String → Option String) : Event → (String → Option String)
  | Event.fileWrite p c => fun q => if q = p then some c else fs q
  | _ => fs

/-- The filesystem after replaying a trace left to right. -/
def applyTrace (fs : String → Option String) (evts : List Event) :
    String → Option String :=
  evts.foldl applyEvent fs

/-- The contents one event writes to a path, if it writes that path. -/
def writeAt (e : Event) (p : String) : Option String :=
  match e with
  | Event.fileWrite q c => if p = q then some c else none
  | _ => none

/-- The last contents a trace writes to a path, if the trace writes it. -/
def lastWrite : List Event → String → Option String
  | [], _ => none
  | e :: rest, p =>
    match lastWrite rest p with
    | some v => some v
    | none => writeAt e p

/-- The contents of a path after a trace: the trace's last write to it
if there is one, else the previous contents. -/
theorem applyTrace_eq : ∀ (evts : List Event) (fs : String → Option String)
    (p : String),
    applyTrace fs evts p
      = match lastWrite evts p with
        | some v => some v
        | none => fs p := by
  intro evts
  induction evts with
  | nil => intro fs p; rfl
  | cons e rest ih =>
    intro fs p
    show applyTrace (applyEvent fs e) rest p = _
    rw [ih]
    cases hl : lastWrite rest p with
    | some v => simp [lastWrite, hl]
    | none =>
      simp only [lastWrite, hl]
      cases e with
      | fileWrite q c =>
        show (if p = q then some c else fs p) = _
        by_cases hpq : p = q <;> simp [writeAt, hpq]
      | plainGet u => rfl
      | sessionCreate s => rfl
      | sessionGet s u j => rfl
      | mkdirp d => rfl

/-- A path no event of the trace writes has no last write. -/
theorem lastWrite_eq_none : ∀ (evts : List Event) (p : String),
    (∀ c, Event.fileWrite p c ∉ evts) → lastWrite evts p = none := by
  intro evts
  induction evts with
  | nil => intro p _; rfl
  | cons e rest ih =>
    intro p h
    have hrest : ∀ c, Event.fileWrite p c ∉ rest :=
      fun c hc => h c (List.mem_cons.2 (Or.inr hc))
    rw [lastWrite, ih p hrest]
    cases e with
    | fileWrite q c' =>
      have hpq : p ≠ q := by
        intro heq
        subst heq
        exact h c' (List.mem_cons.2 (Or.inl rfl))
      simp [writeAt, hpq]
    | plainGet u => rfl
    | sessionCreate s => rfl
    | sessionGet s u j => rfl
    | mkdirp d => rfl

/-- A path missing from the written-path list is written by no event. -/
theorem not_fileWrite_of_not_mem_writes {evts : List Event} {p : String}
    (hp : p ∉ (writesOf evts).map Prod.fst) :
    ∀ c, Event.fileWrite p c ∉ evts := by
  intro c hc
  exact hp (List.mem_map.2 ⟨(p, c),
    List.mem_filterMap.2 ⟨Event.fileWrite p c, hc, rfl⟩, rfl⟩)

/-- C9: replaying the same `download_image` trace a second time leaves
the filesystem exactly as after the first run — each output file is
overwritten with the same contents, no file is appended to, and any
path the run does not write (so in particular any "duplicate" name) is
untouched. -/
theorem download_image_idempotent (w : World) (handle ty : String)
    (mw mh : Option Nat) (fs : String → Option String) :
    applyTrace (applyTrace fs (download_image w handle ty mw mh).1)
        (download_image w handle ty mw mh).1
      = applyTrace fs (download_image w handle ty mw mh).1
  ∧ (∀ p : String,
      p ∉ (writesOf (download_image w handle ty mw mh).1).map Prod.fst →
      applyTrace fs (download_image w handle ty mw mh).1 p = fs p) := by
  constructor
  · funext p
    rw [applyTrace_eq, applyTrace_eq]
    cases lastWrite (download_image w handle ty mw mh).1 p <;> rfl
  · intro p hp
    rw [applyTrace_eq]
    rw [lastWrite_eq_none _ p (not_fileWrite_of_not_mem_writes hp)]

/-- Witness for C9 at the example server: the run writes only
`images/slv-IE1164978-0.jpg`, so an unrelated path is untouched. -/
theorem download_image_idempotent_witness :
    "other.txt" ∉ (writesOf (download_image wC2 handleC2 "jpg" none none).1).map Prod.fst
  ∧ applyTrace (fun _ => none) (download_image wC2 handleC2 "jpg" none none).1 "other.txt"
      = none :=
  ⟨by decide,
   (download_image_idempotent wC2 handleC2 "jpg" none none (fun _ => none)).2
     "other.txt" (by decide)⟩

/-- A successful `entity=(IE\d+)` search really found the pattern: the
searched text decomposes around a nonempty digit run following the
literal `entity=IE`, and the reported group is `IE` plus that run. -/
theorem entitySearch_sound : ∀ (l : List Char) (g : String),
    entitySearch l = some g →
    ∃ p d q, l = p ++ "entity=IE".data ++ d ++ q ∧ d ≠ []
      ∧ d.all Char.isDigit ∧ g = String.mk ("IE".data ++ d) := by
  intro l
  induction l with
  | nil => intro g h; simp [entitySearch] at h
  | cons c rest ih =>
    intro g h
    cases hh : entityHere (c :: rest) with
    | some g' =>
      have hg : g' = g := by
        simp only [entitySearch, hh] at h
        exact Option.some.inj h
      unfold entityHere at hh
      by_cases htake : (c :: rest).take 9 = "entity=IE".data
      · rw [if_pos htake] at hh
        by_cases hemp : (((c :: rest).drop 9).takeWhile Char.isDigit).isEmpty
        · rw [if_pos hemp] at hh; cases hh
        · rw [if_neg hemp] at hh
          have hg' := Option.some.inj hh
          refine ⟨[], ((c :: rest).drop 9).takeWhile Char.isDigit,
            ((c :: rest).drop 9).dropWhile Char.isDigit, ?_, ?_, ?_, ?_⟩
          · have hsplit : (c :: rest) = (c :: rest).take 9 ++ (c :: rest).drop 9 :=
              (List.take_append_drop 9 (c :: rest)).symm
            rw [htake] at hsplit
            have hw : (((c :: rest).drop 9).takeWhile Char.isDigit)
                ++ (((c :: rest).drop 9).dropWhile Char.isDigit)
                = (c :: rest).drop 9 := by
              simp [List.takeWhile_append_dropWhile]
            rw [← hw] at hsplit
            simpa using hsplit
          · intro hnil
            refine hemp ?_
            rw [hnil]
            rfl
          · rw [List.all_eq_true]
            intro x hx
            exact List.mem_takeWhile_imp hx
          · rw [← hg, ← hg']
      · rw [if_neg htake] at hh
        cases hh
    | none =>
      simp only [entitySearch, hh] at h
      obtain ⟨p, d, q, h1, h2, h3, h4⟩ := ih g h
      refine ⟨c :: p, d, q, ?_, h2, h3, h4⟩
      simp only [List.cons_append]
      rw [h1]

/-- A Handle that redirects somewhere without the `entity=` pattern. -/
def handleNoPid : String := "http://handle.slv.vic.gov.au/10381/999"

/-- The pattern-free final URL that Handle redirects to. -/
def noPidResp : Resp :=
  { url := "https://viewer.slv.vic.gov.au/?docId=12345", status := 200,
    cookies := [], body := "", jsonOf := none }

/-- A server where the Handle resolves to a URL with no pid, and the
manifest endpoint for the literal pid `None` answers 404 with a
non-JSON body. -/
def wNoPid : World :=
  ⟨fun url _jar =>
    if url = handleNoPid then Except.ok noPidResp
    else if url = manifestUrlOf "None" then
      Except.ok { url := manifestUrlOf "None", status := 404, cookies := [],
                  body := "not found", jsonOf := none }
    else Except.error PyErr.connectionError⟩

/-- Counterexample for C6: at a Handle whose final URL lacks the
`entity=` pattern, `get_pid` does not fail with any resolution error —
it returns the value Python `None` — and `download_image` does not stop
at the resolution stage: it continues and issues the manifest GET with
the literal string `None` interpolated as the pid (the run only dies
later, on the non-JSON manifest body). -/
theorem get_pid_counterexample :
    get_pid wNoPid handleNoPid = Except.ok none
  ∧ (download_image wNoPid handleNoPid "jpg" none none).1
      = [Event.plainGet handleNoPid, Event.sessionCreate 0,
         Event.sessionGet 0 (manifestUrlOf "None") []]
  ∧ (download_image wNoPid handleNoPid "jpg" none none).2
      = some PyErr.valueError :=
  ⟨rfl, rfl, rfl⟩

/-- C6 as amended: a successful search really reports the first capture
group of an `entity=(IE\d+)` match; a failed search makes `get_pid`
return Python `None` (no exception), after which `download_image`
continues and requests the manifest of the literal pid `None`; and the
sample URL with `entity=IE12345` yields `IE12345`. -/
theorem get_pid_amended :
    (∀ (l : List Char) (g : String), entitySearch l = some g →
      ∃ p d q, l = p ++ "entity=IE".data ++ d ++ q ∧ d ≠ []
        ∧ d.all Char.isDigit ∧ g = String.mk ("IE".data ++ d))
  ∧ (∀ (w : World) (handle : String) (r : Resp),
      w.respond handle [] = Except.ok r →
      entitySearch r.url.data = none →
      get_pid w handle = Except.ok none
      ∧ Event.sessionGet 0 (manifestUrlOf "None") []
          ∈ (download_image w handle "jpg" none none).1)
  ∧ (∀ (w : World) (handle : String) (r : Resp) (g : String),
      w.respond handle [] = Except.ok r →
      entitySearch r.url.data = some g →
      get_pid w handle = Except.ok (some g))
  ∧ entitySearch "https://viewer.example/?entity=IE12345".data = some "IE12345" := by
  refine ⟨entitySearch_sound, ?_, ?_, rfl⟩
  · intro w handle r h0 hnone
    refine ⟨by simp [get_pid, h0, hnone], ?_⟩
    rcases download_image_cases w handle "jpg" none none r h0 with
      ⟨e, hdl⟩ | ⟨rm, m, ids, _, _, _, hdl⟩
    · rw [show (download_image w handle "jpg" none none).1
          = [Event.plainGet handle, Event.sessionCreate 0,
             Event.sessionGet 0
               (manifestUrlOf (pidString (entitySearch r.url.data))) []] from
          congrArg Prod.fst hdl, hnone]
      simp [pidString]
    · rw [congrArg Prod.fst hdl, hnone]
      simp [pidString]
  · intro w handle r g h0 hs
    simp [get_pid, h0, hs]

/-- Witness for C6's amended theorem at the pattern-free server. -/
theorem get_pid_amended_witness :
    wNoPid.respond handleNoPid [] = Except.ok noPidResp
  ∧ entitySearch noPidResp.url.data = none
  ∧ get_pid wNoPid handleNoPid = Except.ok none
  ∧ Event.sessionGet 0 (manifestUrlOf "None") []
      ∈ (download_image wNoPid handleNoPid "jpg" none none).1 :=
  ⟨rfl, rfl,
   (get_pid_amended.2.1 wNoPid handleNoPid noPidResp rfl rfl).1,
   (get_pid_amended.2.1 wNoPid handleNoPid noPidResp rfl rfl).2⟩

/-- A Handle for the failing-image example. -/
def handleC5 : String := "http://handle.slv.vic.gov.au/10381/555"

/-- Its redirect target, resolving to pid `IE55`. -/
def handleRespC5 : Resp :=
  { url := "https://viewer.slv.vic.gov.au/?entity=IE55", status := 200,
    cookies := [], body := "", jsonOf := none }

/-- First image service of the two-page example. -/
def svcA : String := "https://img.example/a"

/-- Second image service of the two-page example. -/
def svcB : String := "https://img.example/b"

/-- Two-canvas manifest response, setting a session cookie. -/
def manifestRespC5 : Resp :=
  { url := manifestUrlOf "IE55", status := 200,
    cookies := [("JSESSIONID", "zz")], body := "",
    jsonOf := some (mkManifest [svcA, svcB]) }

/-- The 403 answer for the first page. -/
def forbiddenRespC5 : Resp :=
  { url := svcA ++ "/full/max/0/default.jpg", status := 403, cookies := [],
    body := "Forbidden", jsonOf := none }

/-- The 200 answer for the second page. -/
def okRespC5 : Resp :=
  { url := svcB ++ "/full/max/0/default.jpg", status := 200, cookies := [],
    body := "OKBYTES", jsonOf := none }

/-- A server whose first image request is answered 403 Forbidden and
whose second succeeds. -/
def wBadStatus : World :=
  ⟨fun url _jar =>
    if url = handleC5 then Except.ok handleRespC5
    else if url = manifestUrlOf "IE55" then Except.ok manifestRespC5
    else if url = svcA ++ "/full/max/0/default.jpg" then Except.ok forbiddenRespC5
    else if url = svcB ++ "/full/max/0/default.jpg" then Except.ok okRespC5
    else Except.error PyErr.connectionError⟩

/-- Counterexample for C5: page 0's image request returns a non-success
status (403), yet no error of any kind is surfaced — the run finishes
with no exception, the 403 body `Forbidden` is written to page 0's
output file, and page 1 is still downloaded afterwards.  The code never
inspects `response.status_code`. -/
theorem image_fetch_counterexample :
    wBadStatus.respond (construct_image_url svcA "jpg" none none)
        [("JSESSIONID", "zz")] = Except.ok forbiddenRespC5
  ∧ forbiddenRespC5.status = 403
  ∧ (download_image wBadStatus handleC5 "jpg" none none).2 = none
  ∧ writesOf (download_image wBadStatus handleC5 "jpg" none none).1
      = [("images/slv-IE55-0.jpg", "Forbidden"),
         ("images/slv-IE55-1.jpg", "OKBYTES")] :=
  ⟨rfl, rfl, rfl, rfl⟩

/-- C5 as amended: only a network-level exception from an image GET
stops the run — the raising page's file is not written, no later page
is requested, and the exception (carrying no page index) is surfaced;
a non-success HTTP status is not detected: the response body is written
to the page's file whatever the status, and the loop continues with the
next page. -/
theorem image_fetch_error_behavior :
    (∀ (w : World) (pidStr ty : String) (mw mh : Option Nat) (imageId : Json)
       (rest : List Json) (index : Nat) (jar : List (String × String))
       (e : PyErr),
      w.respond (construct_image_url (pyStr imageId) ty mw mh) jar
        = Except.error e →
      downloadLoop w pidStr ty mw mh (imageId :: rest) index jar
        = ([Event.sessionGet 0 (construct_image_url (pyStr imageId) ty mw mh) jar],
           some e))
  ∧ (∀ (w : World) (pidStr ty : String) (mw mh : Option Nat) (imageId : Json)
       (rest : List Json) (index : Nat) (jar : List (String × String))
       (r : Resp),
      w.respond (construct_image_url (pyStr imageId) ty mw mh) jar
        = Except.ok r →
      downloadLoop w pidStr ty mw mh (imageId :: rest) index jar
        = (Event.sessionGet 0 (construct_image_url (pyStr imageId) ty mw mh) jar
            :: Event.fileWrite (imageFilename pidStr index ty) r.body
            :: (downloadLoop w pidStr ty mw mh rest (index + 1)
                  (updateJar jar r.cookies)).1,
           (downloadLoop w pidStr ty mw mh rest (index + 1)
              (updateJar jar r.cookies)).2)) := by
  constructor
  · intro w pidStr ty mw mh imageId rest index jar e h
    rw [downloadLoop_cons, h]
  · intro w pidStr ty mw mh imageId rest index jar r h
    rw [downloadLoop_cons, h]

/-- Witness for C5's amended theorem: a connection error on the first
of two pages ends the loop at once — one GET event, no write, no
request for the second page. -/
theorem image_fetch_error_behavior_witness :
    wNoPid.respond
        (construct_image_url (pyStr (Json.str "https://img.example/x"))
          "jpg" none none) []
      = Except.error PyErr.connectionError
  ∧ downloadLoop wNoPid "IE1" "jpg" none none
        [Json.str "https://img.example/x", Json.str "https://img.example/y"] 0 []
      = ([Event.sessionGet 0
            (construct_image_url (pyStr (Json.str "https://img.example/x"))
              "jpg" none none) []],
         some PyErr.connectionError) :=
  ⟨rfl,
   image_fetch_error_behavior.1 wNoPid "IE1" "jpg" none none
     (Json.str "https://img.example/x") [Json.str "https://img.example/y"]
     0 [] PyErr.connectionError rfl⟩

/-- A Handle for the 500-status manifest example. -/
def handleC8 : String := "http://handle.slv.vic.gov.au/10381/888"

/-- Its redirect target, resolving to pid `IE88`. -/
def handleRespC8 : Resp :=
  { url := "https://viewer.slv.vic.gov.au/?entity=IE88", status := 200,
    cookies := [], body := "", jsonOf := none }

/-- Image service of the 500-status example. -/
def svcC8 : String := "https://img.example/c8"

/-- A manifest response with HTTP status 500 whose body nonetheless
parses as a valid one-canvas manifest. -/
def manifestRespC8 : Resp :=
  { url := manifestUrlOf "IE88", status := 500, cookies := [], body := "",
    jsonOf := some (mkManifest [svcC8]) }

/-- The image answer of the 500-status example. -/
def imageRespC8 : Resp :=
  { url := svcC8 ++ "/full/max/0/default.jpg", status := 200, cookies := [],
    body := "C8BYTES", jsonOf := none }

/-- A server whose manifest endpoint answers 500 with a JSON body. -/
def wStatus500 : World :=
  ⟨fun url _jar =>
    if url = handleC8 then Except.ok handleRespC8
    else if url = manifestUrlOf "IE88" then Except.ok manifestRespC8
    else if url = svcC8 ++ "/full/max/0/default.jpg" then Except.ok imageRespC8
    else Except.error PyErr.connectionError⟩

/-- Counterexample for C8: the manifest endpoint answers with the
non-success status 500, yet the fetch does not fail — the JSON body is
parsed and used, and the whole download completes, writing the image
file.  Only the body's JSON-ness matters to the code; the status is
never inspected. -/
theorem fetch_manifest_counterexample :
    wStatus500.respond (manifestUrlOf "IE88") [] = Except.ok manifestRespC8
  ∧ manifestRespC8.status = 500
  ∧ (download_image wStatus500 handleC8 "jpg" none none).2 = none
  ∧ writesOf (download_image wStatus500 handleC8 "jpg" none none).1
      = [("images/slv-IE88-0.jpg", "C8BYTES")] :=
  ⟨rfl, rfl, rfl, rfl⟩

/-- C8 as amended: the manifest is requested at the fixed
presentation-API template with the pid interpolated; a body that is not
JSON aborts the run right after the manifest GET (the JSON decode error
propagates, nothing further happens); a body that is JSON is parsed and
used with no check of the HTTP status — the run proceeds identically
whatever the status. -/
theorem fetch_manifest_behavior :
    (∀ (w : World) (handle ty : String) (mw mh : Option Nat) (r0 : Resp),
      w.respond handle [] = Except.ok r0 →
      Event.sessionGet 0 (manifestUrlOf (pidString (entitySearch r0.url.data))) []
        ∈ (download_image w handle ty mw mh).1)
  ∧ (∀ (w : World) (handle ty : String) (mw mh : Option Nat) (r0 rm : Resp),
      w.respond handle [] = Except.ok r0 →
      w.respond (manifestUrlOf (pidString (entitySearch r0.url.data))) []
        = Except.ok rm →
      rm.jsonOf = none →
      download_image w handle ty mw mh
        = ([Event.plainGet handle, Event.sessionCreate 0,
            Event.sessionGet 0
              (manifestUrlOf (pidString (entitySearch r0.url.data))) []],
           some PyErr.valueError))
  ∧ (∀ (w : World) (handle ty : String) (mw mh : Option Nat) (r0 rm : Resp)
       (m : Json) (ids : List Json),
      w.respond handle [] = Except.ok r0 →
      w.respond (manifestUrlOf (pidString (entitySearch r0.url.data))) []
        = Except.ok rm →
      rm.jsonOf = some m →
      get_image_ids m = Except.ok ids →
      download_image w handle ty mw mh
        = ([Event.plainGet handle, Event.sessionCreate 0,
            Event.sessionGet 0
              (manifestUrlOf (pidString (entitySearch r0.url.data))) [],
            Event.mkdirp "images"]
            ++ (downloadLoop w (pidString (entitySearch r0.url.data)) ty mw mh
                  ids 0 (updateJar [] rm.cookies)).1,
           (downloadLoop w (pidString (entitySearch r0.url.data)) ty mw mh
              ids 0 (updateJar [] rm.cookies)).2)) := by
  refine ⟨?_, ?_, ?_⟩
  · intro w handle ty mw mh r0 h0
    rcases download_image_cases w handle ty mw mh r0 h0 with
      ⟨e, hdl⟩ | ⟨rm, m, ids, _, _, _, hdl⟩
    · rw [congrArg Prod.fst hdl]
      simp
    · rw [congrArg Prod.fst hdl]
      simp
  · intro w handle ty mw mh r0 rm h0 hm hj
    simp [download_image, h0, hm, hj]
  · intro w handle ty mw mh r0 rm m ids h0 hm hj hg
    simp [download_image, h0, hm, hj, hg]

/-- Witness for C8's amended theorem at the 500-status server: all
hypotheses hold with a non-success status, and the run reaches the
download loop. -/
theorem fetch_manifest_behavior_witness :
    wStatus500.respond handleC8 [] = Except.ok handleRespC8
  ∧ wStatus500.respond
        (manifestUrlOf (pidString (entitySearch handleRespC8.url.data))) []
      = Except.ok manifestRespC8
  ∧ manifestRespC8.jsonOf = some (mkManifest [svcC8])
  ∧ get_image_ids (mkManifest [svcC8]) = Except.ok [Json.str svcC8]
  ∧ download_image wStatus500 handleC8 "jpg" none none
      = ([Event.plainGet handleC8, Event.sessionCreate 0,
          Event.sessionGet 0
            (manifestUrlOf (pidString (entitySearch handleRespC8.url.data))) [],
          Event.mkdirp "images"]
          ++ (downloadLoop wStatus500
                (pidString (entitySearch handleRespC8.url.data)) "jpg" none none
                [Json.str svcC8] 0 (updateJar [] manifestRespC8.cookies)).1,
         (downloadLoop wStatus500
            (pidString (entitySearch handleRespC8.url.data)) "jpg" none none
            [Json.str svcC8] 0 (updateJar [] manifestRespC8.cookies)).2) :=
  ⟨rfl, rfl, rfl, rfl,
   fetch_manifest_behavior.2.2 wStatus500 handleC8 "jpg" none none
     handleRespC8 manifestRespC8 (mkManifest [svcC8]) [Json.str svcC8]
     rfl rfl rfl rfl⟩

/-- Inversion of exception propagation: a successful chain had a
successful head. -/
theorem exBind_ok {x : Except PyErr α} {f : α → Except PyErr β} {b : β}
    (h : exBind x f = Except.ok b) :
    ∃ a, x = Except.ok a ∧ f a = Except.ok b := by
  cases x with
  | error e => cases h
  | ok a => exact ⟨a, rfl, h⟩

/-- Inversion of `pySubscript`: success means a dict with the key. -/
theorem pySubscript_ok {j : Json} {k : String} {v : Json}
    (h : pySubscript j k = Except.ok v) :
    ∃ kvs, j = Json.obj kvs ∧ kvs.lookup k = some v := by
  unfold pySubscript at h
  split at h
  · split at h
    · next u heq =>
      exact ⟨_, rfl, heq.trans (congrArg some (Except.ok.inj h))⟩
    · cases h
  · cases h

/-- Inversion of `pyIndex _ 0`: success means a nonempty list (head
returned) or a nonempty string (first character returned). -/
theorem pyIndex_zero_ok {j v : Json} (h : pyIndex j 0 = Except.ok v) :
    (∃ x xs, j = Json.arr (x :: xs) ∧ v = x)
  ∨ (∃ c cs, j = Json.str (String.mk (c :: cs))
      ∧ v = Json.str (String.mk [c])) := by
  cases j with
  | arr xs =>
    cases xs with
    | nil => cases h
    | cons x rest =>
      refine Or.inl ⟨x, rest, rfl, ?_⟩
      have : Except.ok x = Except.ok v := h
      exact (Except.ok.inj this).symm
  | str s =>
    cases s with
    | mk data =>
      cases data with
      | nil => cases h
      | cons c rest =>
        refine Or.inr ⟨c, rest, rfl, ?_⟩
        have : Except.ok (Json.str (String.mk [c])) = Except.ok v := h
        exact (Except.ok.inj this).symm
  | null => cases h
  | bool b => cases h
  | num n => cases h
  | obj kvs => cases h

/-- Inversion of `pyIterate`: the values a loop visits come from a
list, a string, or a dict's keys. -/
theorem pyIterate_ok {j : Json} {cs : List Json}
    (h : pyIterate j = Except.ok cs) :
    (∃ xs, j = Json.arr xs ∧ cs = xs)
  ∨ (∃ s : String, j = Json.str s
      ∧ cs = s.data.map (fun c => Json.str (String.mk [c])))
  ∨ (∃ kvs, j = Json.obj kvs ∧ cs = kvs.map (fun kv => Json.str kv.1)) := by
  cases j with
  | arr xs => exact Or.inl ⟨xs, rfl, (Except.ok.inj h).symm⟩
  | str s => exact Or.inr (Or.inl ⟨s, rfl, (Except.ok.inj h).symm⟩)
  | obj kvs => exact Or.inr (Or.inr ⟨kvs, rfl, (Except.ok.inj h).symm⟩)
  | null => cases h
  | bool b => cases h
  | num n => cases h

/-- A successful traversal succeeded on every element. -/
theorem mapExcept_ok_mem {f : α → Except PyErr β} :
    ∀ {xs : List α} {l : List β}, mapExcept f xs = Except.ok l →
      ∀ x ∈ xs, ∃ b, f x = Except.ok b := by
  intro xs
  induction xs with
  | nil => intro l _ x hx; cases hx
  | cons a rest ih =>
    intro l h x hx
    obtain ⟨b, hb, h2⟩ := exBind_ok h
    obtain ⟨bs, hbs, _⟩ := exBind_ok h2
    cases List.mem_cons.1 hx with
    | inl he => exact he ▸ ⟨b, hb⟩
    | inr hr => exact ih hbs x hr

/-- The expected structure of one canvas is fully present: a dict whose
`images` is a nonempty list headed by a dict whose `resource` is a dict
whose `service` is a dict containing `@id`. -/
def wellFormedCanvas : Json → Bool
  | Json.obj kvs =>
    match kvs.lookup "images" with
    | some (Json.arr (img0 :: _)) =>
      match img0 with
      | Json.obj ikvs =>
        match ikvs.lookup "resource" with
        | some (Json.obj rkvs) =>
          match rkvs.lookup "service" with
          | some (Json.obj skvs) => (skvs.lookup "@id").isSome
          | _ => false
        | _ => false
      | _ => false
    | _ => false
  | _ => false

/-- The expected structure of a manifest is fully present: a dict whose
`sequences` is a nonempty list headed by a dict whose `canvases` is a
list of well-formed canvases. -/
def wellFormedManifest : Json → Bool
  | Json.obj kvs =>
    match kvs.lookup "sequences" with
    | some (Json.arr (seq0 :: _)) =>
      match seq0 with
      | Json.obj skvs =>
        match skvs.lookup "canvases" with
        | some (Json.arr cs) => cs.all wellFormedCanvas
        | _ => false
      | _ => false
    | _ => false
  | _ => false

/-- A value Python iterates as the empty sequence without being a list:
the empty string or the empty dict. -/
def emptyPyIterable : Json → Bool
  | Json.str s => s.data.isEmpty
  | Json.obj kvs => kvs.isEmpty
  | _ => false

/-- A canvas the loop body handles without an exception has the full
expected structure. -/
theorem wellFormedCanvas_of_ok {c j : Json}
    (h : canvasImageId c = Except.ok j) : wellFormedCanvas c = true := by
  obtain ⟨imgs, h1, h'⟩ := exBind_ok h
  obtain ⟨img0, h2, h''⟩ := exBind_ok h'
  obtain ⟨res, h3, h'''⟩ := exBind_ok h''
  obtain ⟨svc, h4, h5⟩ := exBind_ok h'''
  obtain ⟨kvs, hc, hl1⟩ := pySubscript_ok h1
  obtain ⟨ikvs, himg0, hl2⟩ := pySubscript_ok h3
  obtain ⟨rkvs, hres, hl3⟩ := pySubscript_ok h4
  obtain ⟨skvs, hsvc, hl4⟩ := pySubscript_ok h5
  rcases pyIndex_zero_ok h2 with ⟨x, xs, himgs, hx⟩ | ⟨ch, chs, himgs, hx⟩
  · subst hc himgs
    rw [hx] at himg0
    subst himg0 hres hsvc
    simp [wellFormedCanvas, hl1, hl2, hl3, hl4]
  · rw [hx] at himg0
    cases himg0

/-- If `get_image_ids` returns a list at all, either the whole expected
manifest structure is present, or the `canvases` value is an empty
string or empty dict — which Python iterates as nothing — and the
returned list is empty. -/
theorem get_image_ids_ok_inv {m : Json} {l : List Json}
    (h : get_image_ids m = Except.ok l) :
    wellFormedManifest m = true
  ∨ (∃ cv, canvasesValue m = Except.ok cv ∧ emptyPyIterable cv = true
      ∧ l = []) := by
  obtain ⟨cs, hmc, hmap⟩ := exBind_ok h
  obtain ⟨cv, hcv, hit⟩ := exBind_ok hmc
  obtain ⟨seqs, hs1, h'⟩ := exBind_ok hcv
  obtain ⟨seq0v, hs2, hs3⟩ := exBind_ok h'
  obtain ⟨kvs, hm, hl1⟩ := pySubscript_ok hs1
  obtain ⟨skvs, hseq0, hl2⟩ := pySubscript_ok hs3
  rcases pyIndex_zero_ok hs2 with ⟨x, xs, hseqs, hx⟩ | ⟨ch, chs, hseqs, hx⟩
  · subst hm hseqs
    rw [hx] at hseq0
    subst hseq0
    rcases pyIterate_ok hit with ⟨ys, hcveq, hcs⟩ | ⟨s, hcveq, hcs⟩
      | ⟨okvs, hcveq, hcs⟩
    · subst hcveq hcs
      refine Or.inl ?_
      simp only [wellFormedManifest, hl1, hl2]
      rw [List.all_eq_true]
      intro c hcmem
      obtain ⟨b, hb⟩ := mapExcept_ok_mem hmap c hcmem
      exact wellFormedCanvas_of_ok hb
    · subst hcveq hcs
      cases s with
      | mk data =>
        cases data with
        | nil =>
          exact Or.inr ⟨Json.str (String.mk []), hcv, rfl,
            (Except.ok.inj hmap).symm⟩
        | cons c0 cr =>
          exfalso
          obtain ⟨b, hb⟩ := mapExcept_ok_mem hmap
            (Json.str (String.mk [c0]))
            (List.mem_map.2 ⟨c0, List.mem_cons_self c0 cr, rfl⟩)
          simp [canvasImageId, pySubscript, exBind] at hb
    · subst hcveq hcs
      cases okvs with
      | nil =>
        exact Or.inr ⟨Json.obj [], hcv, rfl, (Except.ok.inj hmap).symm⟩
      | cons kv rest =>
        exfalso
        obtain ⟨b, hb⟩ := mapExcept_ok_mem hmap (Json.str kv.1)
          (List.mem_map.2 ⟨kv, List.mem_cons_self kv rest, rfl⟩)
        simp [canvasImageId, pySubscript, exBind] at hb
  · rw [hx] at hseq0
    cases hseq0

/-- A manifest whose `canvases` entry is present but is the empty
string rather than a canvas list. -/
def mSneaky : Json :=
  Json.obj [("sequences", Json.arr [Json.obj [("canvases", Json.str "")]])]

/-- Counterexample for C7: in `mSneaky` the expected nested structure is
absent — `canvases` is a string, not a list of canvases, so the
manifest is not well formed — yet `get_image_ids` does not fail: Python
iterates the empty string as the empty sequence and the function
returns the empty list. -/
theorem get_image_ids_malformed_counterexample :
    wellFormedManifest mSneaky = false
  ∧ get_image_ids mSneaky = Except.ok []
  ∧ canvasesValue mSneaky = Except.ok (Json.str "") :=
  ⟨rfl, rfl, rfl⟩

/-- C7 as amended: on any manifest whose expected nested structure is
absent at any level or in any canvas, `get_image_ids` raises — except
when the only deviation is a `canvases` value that is an empty string
or empty dict, which Python iterates as nothing, so the empty list is
returned.  In particular no nonempty partial or truncated list is ever
returned for a malformed manifest. -/
theorem get_image_ids_malformed (m : Json)
    (hw : wellFormedManifest m = false) :
    (∃ e, get_image_ids m = Except.error e)
  ∨ (∃ cv, canvasesValue m = Except.ok cv ∧ emptyPyIterable cv = true
      ∧ get_image_ids m = Except.ok []) := by
  cases hres : get_image_ids m with
  | error e => exact Or.inl ⟨e, rfl⟩
  | ok l =>
    rcases get_image_ids_ok_inv hres with hwf | ⟨cv, hcv, hemp, hl⟩
    · rw [hwf] at hw
      cases hw
    · refine Or.inr ⟨cv, hcv, hemp, ?_⟩
      rw [hl]

/-- Witness for C7's amended theorem at the empty-string-canvases
manifest. -/
theorem get_image_ids_malformed_witness :
    wellFormedManifest mSneaky = false
  ∧ ((∃ e, get_image_ids mSneaky = Except.error e)
      ∨ (∃ cv, canvasesValue mSneaky = Except.ok cv
          ∧ emptyPyIterable cv = true
          ∧ get_image_ids mSneaky = Except.ok [])) :=
  ⟨rfl, get_image_ids_malformed mSneaky rfl⟩
